import Mathlib

set_option maxRecDepth 100000

/-!
Verification development for the PDB Dbi stream decoder
(lib/DebugInfo/PDB/Raw/DbiStream.cpp).

The decoder is shallowly embedded over byte streams modelled as `List Nat`
(each element a byte value; reads reduce modulo 256).  Machine integers are
modelled as `Nat`/`Int` with explicit wrap-around where the C++ performs
32/64-bit arithmetic.  Fallible operations return `Except RawError`; the
unchecked indexing of the debug-stream table is surfaced as an `Option`
(`none` = out-of-bounds access, undefined behaviour in the C++).
-/

/-- Error kinds of the decoder.  The first four mirror `raw_error_code`;
`insufficient_buffer` models the bounds-check failure of the external
byte-stream reader (a corruption-class error per the design's taxonomy). -/
inductive RawErrorCode where
  | corrupt_file
  | feature_unsupported
  | no_stream
  | index_out_of_bounds
  | insufficient_buffer
  deriving DecidableEq

/-- An error: a kind together with the descriptive message passed to
`make_error<RawError>` (empty when the C++ passes no message). -/
structure RawError where
  code : RawErrorCode
  msg : String
  deriving DecidableEq

/-- The byte of `data` at index `i` (reads reduce modulo 256; out-of-range
reads yield 0 and are only ever used under explicit bounds checks). -/
def byteAt (data : List Nat) (i : Nat) : Nat :=
  (data.getD i 0) % 256

/-- Little-endian value of `n` bytes of `data` starting at offset `off`. -/
def leAt (data : List Nat) (off : Nat) : Nat → Nat
  | 0 => 0
  | n + 1 => byteAt data off + 256 * leAt data (off + 1) n

/-- Little-endian encoding of the low 16 bits of `v`. -/
def le16 (v : Nat) : List Nat := [v % 256, v / 256 % 256]

/-- Little-endian encoding of the low 32 bits of `v`. -/
def le32 (v : Nat) : List Nat :=
  [v % 256, v / 256 % 256, v / 65536 % 256, v / 16777216 % 256]

/-- Interpret a 32-bit pattern as a signed `int32_t` value. -/
def int32OfBits (v : Nat) : Int :=
  if v < 2 ^ 31 then (v : Int) else (v : Int) - 2 ^ 32

/-- The `uint64_t` image of a 32-bit pattern sign-extended from `int32_t`
(the conversion applied when a `little32_t` field meets `size_t`
arithmetic). -/
def u64OfInt32Bits (v : Nat) : Nat :=
  if v < 2 ^ 31 then v else v + (2 ^ 64 - 2 ^ 32)

/-- The fixed 64-byte stream header (`DbiStream::HeaderInfo`).  Each field
holds the raw unsigned value of its little-endian bit pattern; signed
interpretation of the `little32_t` fields happens at use sites. -/
structure HeaderInfo where
  VersionSignature : Nat
  VersionHeader : Nat
  Age : Nat
  GlobalSymbolStreamIndex : Nat
  BuildNumber : Nat
  PublicSymbolStreamIndex : Nat
  PdbDllVersion : Nat
  SymRecordStreamIndex : Nat
  PdbDllRbld : Nat
  ModiSubstreamSize : Nat
  SecContrSubstreamSize : Nat
  SectionMapSize : Nat
  FileInfoSize : Nat
  TypeServerSize : Nat
  MFCTypeServerIndex : Nat
  OptionalDbgHdrSize : Nat
  ECSubstreamSize : Nat
  Flags : Nat
  MachineType : Nat
  Reserved : Nat
  deriving DecidableEq

/-- `sizeof(HeaderInfo)`, asserted to be 64 in the constructor. -/
def sizeofHeaderInfo : Nat := 64

/-- Decode the fixed header from the first 64 bytes of the stream
(`Reader.readObject(Header)` reinterprets those bytes in place). -/
def parseHeader (data : List Nat) : HeaderInfo where
  VersionSignature := leAt data 0 4
  VersionHeader := leAt data 4 4
  Age := leAt data 8 4
  GlobalSymbolStreamIndex := leAt data 12 2
  BuildNumber := leAt data 14 2
  PublicSymbolStreamIndex := leAt data 16 2
  PdbDllVersion := leAt data 18 2
  SymRecordStreamIndex := leAt data 20 2
  PdbDllRbld := leAt data 22 2
  ModiSubstreamSize := leAt data 24 4
  SecContrSubstreamSize := leAt data 28 4
  SectionMapSize := leAt data 32 4
  FileInfoSize := leAt data 36 4
  TypeServerSize := leAt data 40 4
  MFCTypeServerIndex := leAt data 44 4
  OptionalDbgHdrSize := leAt data 48 4
  ECSubstreamSize := leAt data 52 4
  Flags := leAt data 56 2
  MachineType := leAt data 58 2
  Reserved := leAt data 60 4

/-- Modelled from the spec: the minimum supported format version constant
`PdbDbiV70` (RawConstants.h is not under src/; the spec requires a
"minimum supported legacy version constant"). -/
def PdbDbiV70 : Nat := 19990903

/-- The value `reload` compares the total stream length against: 64 plus the
seven declared size fields, summed in `size_t` (64-bit) arithmetic with each
`little32_t` field sign-extended. -/
def dbiDeclaredLength (h : HeaderInfo) : Nat :=
  (sizeofHeaderInfo + u64OfInt32Bits h.ModiSubstreamSize +
      u64OfInt32Bits h.SecContrSubstreamSize + u64OfInt32Bits h.SectionMapSize +
      u64OfInt32Bits h.FileInfoSize + u64OfInt32Bits h.TypeServerSize +
      u64OfInt32Bits h.OptionalDbgHdrSize + u64OfInt32Bits h.ECSubstreamSize) %
    2 ^ 64

/-- Sum of the six substream sizes (module info, section contribution,
section map, file info, type server, EC), excluding the optional
debug-header size.  Used to state the spec's "six declared substream
sizes" reading of the length check. -/
def substreamSizeSum6 (h : HeaderInfo) : Nat :=
  h.ModiSubstreamSize + h.SecContrSubstreamSize + h.SectionMapSize +
    h.FileInfoSize + h.TypeServerSize + h.ECSubstreamSize

/-- Sum of all seven declared size fields (as plain byte counts):
the six substream sizes plus the optional debug-header size. -/
def substreamSizeSum7 (h : HeaderInfo) : Nat :=
  substreamSizeSum6 h + h.OptionalDbgHdrSize

/-- Every one of the seven declared 32-bit size fields is below `2^31`,
i.e. non-negative as an `int32_t`. -/
def substreamSizesSmall (h : HeaderInfo) : Prop :=
  h.ModiSubstreamSize < 2 ^ 31 ∧ h.SecContrSubstreamSize < 2 ^ 31 ∧
    h.SectionMapSize < 2 ^ 31 ∧ h.FileInfoSize < 2 ^ 31 ∧
    h.TypeServerSize < 2 ^ 31 ∧ h.OptionalDbgHdrSize < 2 ^ 31 ∧
    h.ECSubstreamSize < 2 ^ 31

instance (h : HeaderInfo) : Decidable (substreamSizesSmall h) := by
  unfold substreamSizesSmall; infer_instance

/-- Header validation of `DbiStream::reload` up to and including the
total-length check (lines 106-138): presence, signature, version, age,
length. -/
def dbiLengthStage (data : List Nat) (infoAge : Nat) : Except RawError HeaderInfo :=
  if data.length < sizeofHeaderInfo then
    .error ⟨.corrupt_file, "DBI Stream does not contain a header."⟩
  else
    let h := parseHeader data
    if int32OfBits h.VersionSignature ≠ -1 then
      .error ⟨.corrupt_file, "Invalid DBI version signature."⟩
    else if h.VersionHeader < PdbDbiV70 then
      .error ⟨.feature_unsupported, "Unsupported DBI version."⟩
    else if h.Age ≠ infoAge then
      .error ⟨.corrupt_file, "DBI Age does not match PDB Age."⟩
    else if data.length ≠ dbiDeclaredLength h then
      .error ⟨.corrupt_file, "DBI Length does not equal sum of substreams."⟩
    else
      .ok h

/-- The five per-substream alignment checks of `reload` (lines 142-157),
in source order. -/
def dbiAlignChecks (h : HeaderInfo) : Except RawError Unit :=
  if h.ModiSubstreamSize % 4 ≠ 0 then
    .error ⟨.corrupt_file, "DBI MODI substream not aligned."⟩
  else if h.SecContrSubstreamSize % 4 ≠ 0 then
    .error ⟨.corrupt_file, "DBI section contribution substream not aligned."⟩
  else if h.SectionMapSize % 4 ≠ 0 then
    .error ⟨.corrupt_file, "DBI section map substream not aligned."⟩
  else if h.FileInfoSize % 4 ≠ 0 then
    .error ⟨.corrupt_file, "DBI file info substream not aligned."⟩
  else if h.TypeServerSize % 4 ≠ 0 then
    .error ⟨.corrupt_file, "DBI type server substream not aligned."⟩
  else
    .ok ()

/-- All header-level validation of `reload` (lines 106-157). -/
def dbiHeaderChecks (data : List Nat) (infoAge : Nat) : Except RawError HeaderInfo :=
  match dbiLengthStage data infoAge with
  | .error e => .error e
  | .ok h =>
    match dbiAlignChecks h with
    | .error e => .error e
    | .ok _ => .ok h

/-- The size field checked by the `i`-th alignment check, in source order. -/
def alignSize : Fin 5 → HeaderInfo → Nat
  | 0 => HeaderInfo.ModiSubstreamSize
  | 1 => HeaderInfo.SecContrSubstreamSize
  | 2 => HeaderInfo.SectionMapSize
  | 3 => HeaderInfo.FileInfoSize
  | 4 => HeaderInfo.TypeServerSize

/-- The error message of the `i`-th alignment check, naming its substream. -/
def alignMsg : Fin 5 → String
  | 0 => "DBI MODI substream not aligned."
  | 1 => "DBI section contribution substream not aligned."
  | 2 => "DBI section map substream not aligned."
  | 3 => "DBI file info substream not aligned."
  | 4 => "DBI type server substream not aligned."

/-- Modelled from the spec: the external byte-stream reader's bounds-checked
sub-range slice (`Reader.readStreamRef(Out, Length)`): fails when fewer than
`n` bytes remain at offset `off`. -/
def readStreamRef (data : List Nat) (off n : Nat) : Except RawError (List Nat) :=
  if off + n ≤ data.length then .ok ((data.drop off).take n)
  else .error ⟨.insufficient_buffer, "insufficient buffer"⟩

/-- Modelled from the spec: the reader's bounds-checked fixed array read of
16-bit little-endian values. -/
def readUInt16Array (data : List Nat) (off count : Nat) : Except RawError (List Nat) :=
  if off + 2 * count ≤ data.length then
    .ok ((List.range count).map fun i => leAt data (off + 2 * i) 2)
  else .error ⟨.insufficient_buffer, "insufficient buffer"⟩

/-- Modelled from the spec: the reader's bounds-checked fixed array read of
32-bit little-endian values. -/
def readUInt32Array (data : List Nat) (off count : Nat) : Except RawError (List Nat) :=
  if off + 4 * count ≤ data.length then
    .ok ((List.range count).map fun i => leAt data (off + 4 * i) 4)
  else .error ⟨.insufficient_buffer, "insufficient buffer"⟩

/-- Length of the zero-terminated string starting at the head of the list
(`none` when no NUL byte occurs before the end of the range). -/
def zeroStringLen : List Nat → Option Nat
  | [] => none
  | b :: bs => if b % 256 = 0 then some 0 else (zeroStringLen bs).map Nat.succ

/-- Modelled from the spec: the reader's zero-terminated string read at
offset `off` (`Names.setOffset(FileOffset)` followed by
`Names.readZeroString(Name)`); seeking at or past the end of the buffer, or
finding no NUL byte, is a bounds failure. -/
def zeroStringAt (names : List Nat) (off : Nat) : Except RawError (List Nat) :=
  match zeroStringLen (names.drop off) with
  | none => .error ⟨.insufficient_buffer, "insufficient buffer"⟩
  | some n => .ok ((names.drop off).take n)

/-- Split a list into consecutive chunks of `sz` bytes (first argument is
fuel, instantiated with the list length). -/
def chunks (sz : Nat) : Nat → List Nat → List (List Nat)
  | 0, _ => []
  | _, [] => []
  | fuel + 1, l => l.take sz :: chunks sz fuel (l.drop sz)

/-- Split `l` into consecutive `sz`-byte records. -/
def chunksOf (sz : Nat) (l : List Nat) : List (List Nat) := chunks sz l.length l

/-- Modelled from the spec: the reader's bounds-checked fixed array read of
`count` records of `recSize` bytes each, starting at `off`. -/
def readFixedArray (recSize : Nat) (data : List Nat) (off count : Nat) :
    Except RawError (List (List Nat)) :=
  if off + recSize * count ≤ data.length then
    .ok (chunksOf recSize ((data.drop off).take (recSize * count)))
  else .error ⟨.insufficient_buffer, "insufficient buffer"⟩

/-- One decoded module record: the two inline NUL-terminated names plus the
source-file-name list appended later by the file-info pass
(`ModuleInfoEx`).  The fixed 64-byte layout prefix carries no information
used by this development and is not retained. -/
structure ModuleRecord where
  moduleName : List Nat
  objFileName : List Nat
  sourceFiles : List (List Nat)
  deriving DecidableEq

/-- Modelled from the spec: byte size of the fixed layout prefix of a module
record (ModInfo.cpp is not under src/; the spec gives "a fixed-size prefix
... followed by two inline NUL-terminated strings"). -/
def modInfoLayoutSize : Nat := 64

/-- Round up to the next multiple of 4 (the format's record alignment). -/
def alignTo4 (n : Nat) : Nat := (n + 3) / 4 * 4

/-- The corruption error for a module record truncated mid-record. -/
def modiTruncatedError : RawError :=
  ⟨.corrupt_file, "DBI module record truncated"⟩

/-- Modelled from the spec: extraction of one variable-length module record
from the head of (a suffix of) the module-info region: the fixed prefix, the
two NUL-terminated strings, and the total record length aligned to 4.
Returns the record and its aligned length; truncation is corruption. -/
def readModRecord (r : List Nat) : Except RawError (ModuleRecord × Nat) :=
  if r.length < modInfoLayoutSize then .error modiTruncatedError
  else
    match zeroStringLen (r.drop modInfoLayoutSize) with
    | none => .error modiTruncatedError
    | some n1 =>
      match zeroStringLen (r.drop (modInfoLayoutSize + n1 + 1)) with
      | none => .error modiTruncatedError
      | some n2 =>
        let len := alignTo4 (modInfoLayoutSize + n1 + 1 + n2 + 1)
        if r.length < len then .error modiTruncatedError
        else
          .ok ({ moduleName := (r.drop modInfoLayoutSize).take n1,
                 objFileName := (r.drop (modInfoLayoutSize + n1 + 1)).take n2,
                 sourceFiles := [] }, len)

/-- Modelled from the spec: iteration of the module-info region as a
sequence of variable-length records until the remaining length reaches zero
(`VarStreamArray<ModInfo>`; StreamArray.h is not under src/).  The first
argument is fuel, instantiated with one more than the region length. -/
def iterModInfos (fuel : Nat) (r : List Nat) : Except RawError (List ModuleRecord) :=
  match fuel, r with
  | 0, _ => .error ⟨.corrupt_file, "DBI module record iteration did not terminate"⟩
  | _ + 1, [] => .ok []
  | fuel + 1, r =>
    match readModRecord r with
    | .error e => .error e
    | .ok (m, len) =>
      match iterModInfos fuel (r.drop len) with
      | .error e => .error e
      | .ok ms => .ok (m :: ms)

/-- Decode the whole module-info region into its list of module records,
discovering the count by iteration. -/
def readModuleInfos (region : List Nat) : Except RawError (List ModuleRecord) :=
  iterModInfos (region.length + 1) region

/-- Modelled from the spec: the two recognized section-contribution version
tags (RawConstants.h is not under src/). -/
def DbiSecContribVer60 : Nat := 0xeffe0000 + 19970605

/-- Modelled from the spec: the V2 section-contribution version tag. -/
def DbiSecContribV2 : Nat := 0xeffe0000 + 20000404

/-- Modelled from the spec: `sizeof(SectionContrib)`, the fixed V60 record
size (RawTypes.h is not under src/). -/
def sizeofSectionContrib : Nat := 28

/-- Modelled from the spec: `sizeof(SectionContrib2)`; the V2 record adds
one 32-bit field to the V60 record. -/
def sizeofSectionContrib2 : Nat := 32

/-- Load a tightly packed array of fixed-size section-contribution records
from the bytes remaining after the version tag (`loadSectionContribs`):
the remaining byte count must be an exact multiple of the record size. -/
def loadSectionContribs (recSize : Nat) (rem : List Nat) :
    Except RawError (List (List Nat)) :=
  if rem.length % recSize ≠ 0 then
    .error ⟨.corrupt_file, "Invalid number of bytes of section contributions"⟩
  else .ok (chunksOf recSize rem)

/-- Decoded section-contribution data: the version tag and the two variant
arrays (exactly one is populated). -/
structure SecContribData where
  version : Nat
  contribs : List (List Nat)
  contribs2 : List (List Nat)
  deriving DecidableEq

/-- `DbiStream::initializeSectionContributionData`: read the 4-byte version
tag from the section-contribution substream, dispatch on it, and load the
corresponding record array; an unrecognized tag is an unsupported feature. -/
def initializeSectionContributionData (sc : List Nat) :
    Except RawError SecContribData :=
  if sc.length < 4 then .error ⟨.insufficient_buffer, "insufficient buffer"⟩
  else
    let v := leAt sc 0 4
    if v = DbiSecContribVer60 then
      match loadSectionContribs sizeofSectionContrib (sc.drop 4) with
      | .error e => .error e
      | .ok cs => .ok ⟨v, cs, []⟩
    else if v = DbiSecContribV2 then
      match loadSectionContribs sizeofSectionContrib2 (sc.drop 4) with
      | .error e => .error e
      | .ok cs => .ok ⟨v, [], cs⟩
    else
      .error ⟨.feature_unsupported, "Unsupported DBI Section Contribution version"⟩

/-- Modelled from the spec: `sizeof(SecMapEntry)` (RawTypes.h is not under
src/). -/
def sizeofSecMapEntry : Nat := 20

/-- `DbiStream::initializeSectionMapData`: read the 4-byte section-map
header (a 16-bit entry count plus an unused field), then exactly that many
fixed-size entries. -/
def initializeSectionMapData (sm : List Nat) : Except RawError (List (List Nat)) :=
  if sm.length < 4 then .error ⟨.insufficient_buffer, "insufficient buffer"⟩
  else readFixedArray sizeofSecMapEntry sm 4 (leAt sm 0 2)

/-- Modelled from the spec: the external collaborators consumed by the
decoder — the PDB-wide age from the Info stream, the container stream
directory (stream count and per-stream byte ranges), and the name-hash-table
loader invoked on the EC substream bytes. -/
structure PdbEnv where
  infoAge : Nat
  numStreams : Nat
  streams : Nat → List Nat
  ecLoad : List Nat → Except RawError Unit

/-- Modelled from the spec: index of the section-header kind in the
debug-stream-index table (`DbgHeaderType::SectionHdr`; RawConstants.h is
not under src/). -/
def dbgHeaderTypeSectionHdr : Nat := 5

/-- Modelled from the spec: index of the new-style FPO kind in the
debug-stream-index table (`DbgHeaderType::NewFPO`). -/
def dbgHeaderTypeNewFPO : Nat := 9

/-- Modelled from the spec: the all-ones 16-bit sentinel meaning "absent"
(`InvalidStreamIndex`). -/
def InvalidStreamIndex : Nat := 0xFFFF

/-- `DbiStream::getDebugStreamIndex`: index the debug-stream table at the
kind's fixed position.  The C++ performs no bounds check
(`DbgStreams[static_cast<uint16_t>(Type)]`); `none` models the
out-of-bounds access, which is undefined behaviour. -/
def getDebugStreamIndex (dbgStreams : List Nat) (ty : Nat) : Option Nat :=
  dbgStreams.get? ty

/-- Modelled from the spec: `sizeof(object::coff_section)` (llvm/Object/COFF.h
is not under src/; consumed here only as an opaque fixed-size layout). -/
def sizeofCoffSection : Nat := 40

/-- Modelled from the spec: `sizeof(object::FpoData)`. -/
def sizeofFpoData : Nat := 16

/-- `DbiStream::initializeSectionHeadersData`: look up the section-header
stream number (unchecked table access), require it in the directory's range,
and decode the whole stream as a fixed array of COFF section headers whose
byte length must be an exact record-size multiple. -/
def initializeSectionHeadersData (env : PdbEnv) (dbgStreams : List Nat) :
    Option (Except RawError (List (List Nat))) :=
  match getDebugStreamIndex dbgStreams dbgHeaderTypeSectionHdr with
  | none => none
  | some streamNum =>
    some (if env.numStreams ≤ streamNum then .error ⟨.no_stream, ""⟩
      else
        let s := env.streams streamNum
        if s.length % sizeofCoffSection ≠ 0 then
          .error ⟨.corrupt_file, "Corrupted section header stream."⟩
        else .ok (chunksOf sizeofCoffSection s))

/-- `DbiStream::initializeFpoRecords`: look up the new-FPO stream number
(unchecked table access); the all-ones sentinel means "no FPO data" and
succeeds with an empty table; a non-sentinel number out of the directory's
range is `no_stream`; otherwise the stream's byte length must be an exact
multiple of the FPO record size. -/
def initializeFpoRecords (env : PdbEnv) (dbgStreams : List Nat) :
    Option (Except RawError (List (List Nat))) :=
  match getDebugStreamIndex dbgStreams dbgHeaderTypeNewFPO with
  | none => none
  | some streamNum =>
    some (if streamNum = InvalidStreamIndex then .ok []
      else if env.numStreams ≤ streamNum then .error ⟨.no_stream, ""⟩
      else
        let s := env.streams streamNum
        if s.length % sizeofFpoData ≠ 0 then
          .error ⟨.corrupt_file, "Corrupted New FPO stream."⟩
        else .ok (chunksOf sizeofFpoData s))

/-- `DbiStream::getFileNameForIndex`: an index at or past the end of the
decoded offsets table is `index_out_of_bounds`; otherwise seek the names
buffer to the stored offset and read the NUL-terminated string there. -/
def getFileNameForIndex (offsets names : List Nat) (index : Nat) :
    Except RawError (List Nat) :=
  if offsets.length ≤ index then .error ⟨.index_out_of_bounds, ""⟩
  else zeroStringAt names (offsets.getD index 0)

/-- Resolve `count` consecutive file-name indices starting at `cursor`
(the inner loop of the association pass). -/
def readFilesRange (offsets names : List Nat) (cursor : Nat) :
    Nat → Except RawError (List (List Nat))
  | 0 => .ok []
  | count + 1 =>
    match getFileNameForIndex offsets names cursor with
    | .error e => .error e
    | .ok name =>
      match readFilesRange offsets names (cursor + 1) count with
      | .error e => .error e
      | .ok more => .ok (name :: more)

/-- The association pass of `initializeFileInfo`: walk the per-module file
counts in order, giving module `i` the next `counts[i]` file names, with a
single running cursor that is never reset between modules. -/
def associateFiles (offsets names : List Nat) (cursor : Nat) :
    List Nat → Except RawError (List (List (List Nat)))
  | [] => .ok []
  | c :: rest =>
    match readFilesRange offsets names cursor c with
    | .error e => .error e
    | .ok files =>
      match associateFiles offsets names (cursor + c) rest with
      | .error e => .error e
      | .ok more => .ok (files :: more)

/-- The accumulation computing the real number of source files
(`uint32_t NumSourceFiles = 0; for (auto Count : ModFileCountArray)
NumSourceFiles += Count;`): a fold in 32-bit unsigned arithmetic. -/
def sumCountsU32 (counts : List Nat) : Nat :=
  counts.foldl (fun acc c => (acc + c) % 2 ^ 32) 0

/-- `DbiStream::initializeFileInfo`: decode the file-info substream against
the already-decoded module list.  The declared 16-bit NumSourceFiles field
(bytes 2-3) is read as part of the header struct but never used; the real
count is recomputed from the per-module counts.  Returns the modules with
their source-file lists attached, the decoded offsets table, and the names
buffer. -/
def initializeFileInfo (modules : List ModuleRecord) (fi : List Nat) :
    Except RawError (List ModuleRecord × List Nat × List Nat) :=
  if fi.length < 4 then .error ⟨.insufficient_buffer, "insufficient buffer"⟩
  else
    let numModules := leAt fi 0 2
    if numModules ≠ modules.length then
      .error ⟨.corrupt_file, "FileInfo substream count doesn't match DBI."⟩
    else
      match readUInt16Array fi 4 modules.length with
      | .error e => .error e
      | .ok _modIndices =>
        match readUInt16Array fi (4 + 2 * modules.length) modules.length with
        | .error e => .error e
        | .ok counts =>
          let realNumSourceFiles := sumCountsU32 counts
          match readUInt32Array fi (4 + 4 * modules.length) realNumSourceFiles with
          | .error e => .error e
          | .ok offsets =>
            let names := fi.drop (4 + 4 * modules.length + 4 * realNumSourceFiles)
            match associateFiles offsets names 0 counts with
            | .error e => .error e
            | .ok lists =>
              .ok (modules.zipWith (fun m fs => { m with sourceFiles := fs }) lists,
                   offsets, names)

/-- The result of a successful `reload`: the decoded header and every table
the pass populates. -/
structure DbiResult where
  header : HeaderInfo
  modules : List ModuleRecord
  secContribVersion : Nat
  sectionContribs : List (List Nat)
  sectionContribs2 : List (List Nat)
  sectionHeaders : List (List Nat)
  sectionMap : List (List Nat)
  fileNameOffsets : List Nat
  namesBuffer : List Nat
  fpoRecords : List (List Nat)
  deriving DecidableEq

/-- Outcome of `reload`: success, a propagated first error, or an
out-of-bounds access to the debug-stream-index table (undefined behaviour
in the C++). -/
inductive DbiOutcome where
  | ok (r : DbiResult)
  | fail (e : RawError)
  | oob
  deriving DecidableEq

/-- Sequence an `Except` step into a `DbiOutcome` computation, propagating
the first error unchanged. -/
def DbiOutcome.bindE {α : Type} (x : Except RawError α) (f : α → DbiOutcome) :
    DbiOutcome :=
  match x with
  | .error e => .fail e
  | .ok a => f a

/-- Number of entries of the debug-stream-index table:
`Header->OptionalDbgHdrSize / sizeof(ulittle16_t)` — a signed 32-bit field
divided by a `size_t`, hence sign-extended 64-bit division. -/
def dbgStreamCount (h : HeaderInfo) : Nat :=
  u64OfInt32Bits h.OptionalDbgHdrSize / 2

/-- `DbiStream::reload`: the single decode-and-validate pass.  Header
validation, substream segmentation in declared order, module-record
iteration, section-contribution / section-header / section-map / file-info /
FPO decoding, the trailing leftover-byte check, and the hand-off of the EC
substream to the external name-hash-table loader. -/
def reload (env : PdbEnv) (data : List Nat) : DbiOutcome :=
  DbiOutcome.bindE (dbiHeaderChecks data env.infoAge) fun h =>
  DbiOutcome.bindE (readStreamRef data sizeofHeaderInfo h.ModiSubstreamSize) fun modiBytes =>
  DbiOutcome.bindE (readModuleInfos modiBytes) fun modules =>
  DbiOutcome.bindE (readStreamRef data (sizeofHeaderInfo + h.ModiSubstreamSize)
      h.SecContrSubstreamSize) fun scBytes =>
  DbiOutcome.bindE (readStreamRef data
      (sizeofHeaderInfo + h.ModiSubstreamSize + h.SecContrSubstreamSize)
      h.SectionMapSize) fun smBytes =>
  DbiOutcome.bindE (readStreamRef data
      (sizeofHeaderInfo + h.ModiSubstreamSize + h.SecContrSubstreamSize +
        h.SectionMapSize) h.FileInfoSize) fun fiBytes =>
  DbiOutcome.bindE (readStreamRef data
      (sizeofHeaderInfo + h.ModiSubstreamSize + h.SecContrSubstreamSize +
        h.SectionMapSize + h.FileInfoSize) h.TypeServerSize) fun _tsBytes =>
  DbiOutcome.bindE (readStreamRef data
      (sizeofHeaderInfo + h.ModiSubstreamSize + h.SecContrSubstreamSize +
        h.SectionMapSize + h.FileInfoSize + h.TypeServerSize)
      h.ECSubstreamSize) fun ecBytes =>
  DbiOutcome.bindE (readUInt16Array data
      (sizeofHeaderInfo + h.ModiSubstreamSize + h.SecContrSubstreamSize +
        h.SectionMapSize + h.FileInfoSize + h.TypeServerSize +
        h.ECSubstreamSize) (dbgStreamCount h)) fun dbgStreams =>
  DbiOutcome.bindE (initializeSectionContributionData scBytes) fun scd =>
  match initializeSectionHeadersData env dbgStreams with
  | none => .oob
  | some shRes =>
    DbiOutcome.bindE shRes fun secHdrs =>
    DbiOutcome.bindE (initializeSectionMapData smBytes) fun secMap =>
    DbiOutcome.bindE (initializeFileInfo modules fiBytes) fun fiRes =>
    match initializeFpoRecords env dbgStreams with
    | none => .oob
    | some fpoRes =>
      DbiOutcome.bindE fpoRes fun fpos =>
      if 0 < data.length -
          (sizeofHeaderInfo + h.ModiSubstreamSize + h.SecContrSubstreamSize +
            h.SectionMapSize + h.FileInfoSize + h.TypeServerSize +
            h.ECSubstreamSize + 2 * dbgStreamCount h) then
        .fail ⟨.corrupt_file, "Found unexpected bytes in DBI Stream."⟩
      else
        DbiOutcome.bindE (env.ecLoad ecBytes) fun _ =>
        .ok { header := h
              modules := fiRes.1
              secContribVersion := scd.version
              sectionContribs := scd.contribs
              sectionContribs2 := scd.contribs2
              sectionHeaders := secHdrs
              sectionMap := secMap
              fileNameOffsets := fiRes.2.1
              namesBuffer := fiRes.2.2
              fpoRecords := fpos }

/-- Header bytes of the concrete well-formed witness stream: signature all
ones, version V70, age 1, module-info size 136 (two 68-byte records),
section-contribution size 4 (tag only), section-map size 4, file-info size
12, optional debug-header size 20 (ten table entries), EC size 0. -/
def wHeaderBytes : List Nat :=
  le32 0xFFFFFFFF ++ le32 PdbDbiV70 ++ le32 1 ++
  le16 0 ++ le16 0 ++ le16 0 ++ le16 0 ++ le16 0 ++ le16 0 ++
  le32 136 ++ le32 4 ++ le32 4 ++ le32 12 ++ le32 0 ++ le32 0 ++
  le32 20 ++ le32 0 ++ le16 0 ++ le16 0 ++ le32 0

/-- Debug-stream-index table bytes of the witness stream: all slots the
all-ones sentinel, except the section-header slot (index 5), which names
stream 1. -/
def wDbgBytes : List Nat :=
  (List.replicate 5 (le16 InvalidStreamIndex)).flatten ++ le16 1 ++
    (List.replicate 4 (le16 InvalidStreamIndex)).flatten

/-- The complete 240-byte well-formed witness stream: two all-zero module
records, a V60 tag with zero contribution records, an empty section map,
a file-info substream with two modules owning zero files each, and the
debug-stream table above. -/
def wData : List Nat :=
  wHeaderBytes ++ List.replicate 136 0 ++ le32 DbiSecContribVer60 ++
    [0, 0, 0, 0] ++ ([2, 0, 0, 0] ++ [0, 0, 0, 0] ++ [0, 0, 0, 0]) ++ wDbgBytes

/-- Collaborator environment for the witness stream: age 1, a two-stream
directory whose streams are empty, and a name-hash-table loader that
accepts anything. -/
def envW : PdbEnv where
  infoAge := 1
  numStreams := 2
  streams := fun _ => []
  ecLoad := fun _ => .ok ()


/-- A 76-byte stream that reaches the section-header table lookup with a
debug-stream table of only 4 entries (declared optional debug-header size
8): no modules, a V60 tag with zero contribution records, every other
substream empty. -/
def oobData : List Nat :=
  (le32 0xFFFFFFFF ++ le32 PdbDbiV70 ++ le32 1 ++
    le16 0 ++ le16 0 ++ le16 0 ++ le16 0 ++ le16 0 ++ le16 0 ++
    le32 0 ++ le32 4 ++ le32 0 ++ le32 0 ++ le32 0 ++ le32 0 ++
    le32 8 ++ le32 0 ++ le16 0 ++ le16 0 ++ le32 0) ++
  le32 DbiSecContribVer60 ++ [0, 0, 0, 0, 0, 0, 0, 0]

/-- A 64-byte stream whose header passes the signature, version and age 0
checks, with every declared size zero except an optional debug-header size
of 4: its length equals 64 plus the sum of the six substream sizes, yet the
length check rejects it. -/
def cexC1Data : List Nat :=
  le32 0xFFFFFFFF ++ le32 PdbDbiV70 ++ le32 0 ++
    le16 0 ++ le16 0 ++ le16 0 ++ le16 0 ++ le16 0 ++ le16 0 ++
    le32 0 ++ le32 0 ++ le32 0 ++ le32 0 ++ le32 0 ++ le32 0 ++
    le32 4 ++ le32 0 ++ le16 0 ++ le16 0 ++ le32 0


/-- Byte offset of the file-info substream within the whole stream, as
determined by the declared sizes of the three regions preceding it. -/
def fileInfoStart (data : List Nat) : Nat :=
  sizeofHeaderInfo + leAt data 24 4 + leAt data 28 4 + leAt data 32 4

/-- Per-module source-file lists of a successful `initializeFileInfo`
result. -/
def fileListsOf (x : Except RawError (List ModuleRecord × List Nat × List Nat)) :
    Option (List (List (List Nat))) :=
  match x with
  | .ok (mods, _, _) => some (mods.map fun m => m.sourceFiles)
  | .error _ => none

/-- Two bare module records (no names, no files yet) for the file-name
association scenario. -/
def c4Modules : List ModuleRecord :=
  [⟨[], [], []⟩, ⟨[], [], []⟩]

/-- The scenario names buffer: the bytes of a.c NUL b.c NUL. -/
def c4Names : List Nat := [97, 46, 99, 0, 98, 46, 99, 0]

/-- A file-info substream for the scenario: two modules, each owning one
file, offsets 0 and 4 into the names buffer above. -/
def c4FileInfo : List Nat :=
  [2, 0, 2, 0] ++ [0, 0, 0, 0] ++ [1, 0, 1, 0] ++ le32 0 ++ le32 4 ++ c4Names


/-- A 66-byte stream passing the length stage whose declared module-info
size is 2, which is not a multiple of 4. -/
def c8Data : List Nat :=
  le32 0xFFFFFFFF ++ le32 PdbDbiV70 ++ le32 0 ++
    le16 0 ++ le16 0 ++ le16 0 ++ le16 0 ++ le16 0 ++ le16 0 ++
    le32 2 ++ le32 0 ++ le32 0 ++ le32 0 ++ le32 0 ++ le32 0 ++
    le32 0 ++ le32 0 ++ le16 0 ++ le16 0 ++ le32 0 ++ [0, 0]

theorem sumCountsU32_eq_sum_of_lt (counts : List Nat) (a : Nat)
    (h : a + counts.sum < 2 ^ 32) :
    counts.foldl (fun acc c => (acc + c) % 2 ^ 32) a = a + counts.sum := by
  induction counts generalizing a with
  | nil => simp
  | cons c cs ih =>
    simp only [List.foldl_cons, List.sum_cons] at h ⊢
    rw [Nat.mod_eq_of_lt (by omega), ih (a + c) (by omega)]
    omega

theorem list_sum_le_mul (l : List Nat) (b : Nat) (h : ∀ c ∈ l, c ≤ b) :
    l.sum ≤ b * l.length := by
  induction l with
  | nil => simp
  | cons c cs ih =>
    simp only [List.sum_cons, List.length_cons]
    have hc := h c (by simp)
    have := ih fun x hx => h x (by simp [hx])
    calc c + cs.sum ≤ b + b * cs.length := by omega
      _ = b * (cs.length + 1) := by ring

/-- Claim C9: RealNumSourceFiles is computed by the 32-bit unsigned fold
over the per-module 16-bit file counts; for at most 65535 modules with each
count at most 65535 the accumulator never wraps, so the computed value
equals the mathematical sum even when it exceeds 65535. -/
theorem realNumSourceFiles_no_overflow (counts : List Nat)
    (hlen : counts.length ≤ 65535) (hbound : ∀ c ∈ counts, c ≤ 65535) :
    sumCountsU32 counts = counts.sum := by
  have h1 : counts.sum ≤ 65535 * counts.length := list_sum_le_mul counts 65535 hbound
  have h2 : 65535 * counts.length ≤ 65535 * 65535 :=
    Nat.mul_le_mul_left 65535 hlen
  unfold sumCountsU32
  rw [sumCountsU32_eq_sum_of_lt counts 0 (by omega)]
  omega

theorem realNumSourceFiles_no_overflow_witness :
    sumCountsU32 [65535, 65535] = 131070 := by
  rw [realNumSourceFiles_no_overflow [65535, 65535] (by decide) (by decide)]
  decide

/-- Claim C7: getFileNameForIndex returns an IndexOutOfBounds error for
every index at or past the number of decoded file-name offsets (never a
truncated or garbage string); for every in-bounds index it reads the
NUL-terminated string at the stored offset in the names buffer; and a seek
at or past the end of the names buffer fails with the reader's
bounds-check (corruption-class) error. -/
theorem getFileNameForIndex_bounds (offsets names : List Nat) (index : Nat) :
    (offsets.length ≤ index →
      getFileNameForIndex offsets names index = .error ⟨.index_out_of_bounds, ""⟩)
    ∧ (index < offsets.length →
      getFileNameForIndex offsets names index = zeroStringAt names (offsets.getD index 0)
      ∧ (names.length ≤ offsets.getD index 0 →
        getFileNameForIndex offsets names index =
          .error ⟨.insufficient_buffer, "insufficient buffer"⟩)) := by
  constructor
  · intro h
    simp [getFileNameForIndex, h]
  · intro h
    have hno : ¬ offsets.length ≤ index := by omega
    constructor
    · simp [getFileNameForIndex, hno]
    · intro hseek
      have hdrop : names.drop (offsets.getD index 0) = [] :=
        List.drop_eq_nil_of_le hseek
      simp only [getFileNameForIndex, if_neg hno, zeroStringAt, hdrop, zeroStringLen]

theorem getFileNameForIndex_bounds_witness :
    getFileNameForIndex [0] [] 5 = .error ⟨.index_out_of_bounds, ""⟩
    ∧ getFileNameForIndex [9] [] 0 =
        .error ⟨.insufficient_buffer, "insufficient buffer"⟩ :=
  ⟨(getFileNameForIndex_bounds [0] [] 5).1 (by decide),
   (((getFileNameForIndex_bounds [9] [] 0).2 (by decide)).2 (by decide))⟩

/-- Claim C2: section-contribution decode is a total function of the 4-byte
version tag: the V60 tag populates only the V60 array, the V2 tag populates
only the V2 array, any other tag is an UnsupportedFeature error; and after
the tag, a remaining byte count that is not an exact multiple of the
selected record size fails with a CorruptFile error. -/
theorem sectionContribution_tag_dispatch (sc : List Nat) (hlen : 4 ≤ sc.length) :
    (leAt sc 0 4 = DbiSecContribVer60 →
      ((sc.length - 4) % sizeofSectionContrib = 0 →
        initializeSectionContributionData sc =
          .ok ⟨DbiSecContribVer60, chunksOf sizeofSectionContrib (sc.drop 4), []⟩)
      ∧ ((sc.length - 4) % sizeofSectionContrib ≠ 0 →
        initializeSectionContributionData sc =
          .error ⟨.corrupt_file, "Invalid number of bytes of section contributions"⟩))
    ∧ (leAt sc 0 4 = DbiSecContribV2 →
      ((sc.length - 4) % sizeofSectionContrib2 = 0 →
        initializeSectionContributionData sc =
          .ok ⟨DbiSecContribV2, [], chunksOf sizeofSectionContrib2 (sc.drop 4)⟩)
      ∧ ((sc.length - 4) % sizeofSectionContrib2 ≠ 0 →
        initializeSectionContributionData sc =
          .error ⟨.corrupt_file, "Invalid number of bytes of section contributions"⟩))
    ∧ (leAt sc 0 4 ≠ DbiSecContribVer60 → leAt sc 0 4 ≠ DbiSecContribV2 →
      initializeSectionContributionData sc =
        .error ⟨.feature_unsupported, "Unsupported DBI Section Contribution version"⟩) := by
  have hno : ¬ sc.length < 4 := by omega
  have hdl : (sc.drop 4).length = sc.length - 4 := List.length_drop 4 sc
  have hne60 : DbiSecContribV2 ≠ DbiSecContribVer60 := by decide
  refine ⟨fun hv => ⟨fun hmod => ?_, fun hmod => ?_⟩,
          fun hv => ⟨fun hmod => ?_, fun hmod => ?_⟩, fun h60 h2 => ?_⟩
  · simp [initializeSectionContributionData, loadSectionContribs, hno, hv, hdl, hmod]
  · simp [initializeSectionContributionData, loadSectionContribs, hno, hv, hdl, hmod]
  · simp [initializeSectionContributionData, loadSectionContribs, hno, hv, hdl, hmod, hne60]
  · simp [initializeSectionContributionData, loadSectionContribs, hno, hv, hdl, hmod, hne60]
  · simp [initializeSectionContributionData, hno, h60, h2]

theorem sectionContribution_tag_dispatch_witness :
    initializeSectionContributionData (le32 DbiSecContribVer60) =
      .ok ⟨DbiSecContribVer60,
           chunksOf sizeofSectionContrib ((le32 DbiSecContribVer60).drop 4), []⟩
    ∧ initializeSectionContributionData (le32 1234) =
      .error ⟨.feature_unsupported, "Unsupported DBI Section Contribution version"⟩ :=
  ⟨((sectionContribution_tag_dispatch (le32 DbiSecContribVer60) (by decide)).1
      (by decide)).1 (by decide),
   (sectionContribution_tag_dispatch (le32 1234) (by decide)).2.2
      (by decide) (by decide)⟩

theorem dbiAlignChecks_cases (h : HeaderInfo) :
    ((∀ i : Fin 5, alignSize i h % 4 = 0) ∧ dbiAlignChecks h = .ok ())
    ∨ ∃ i : Fin 5, dbiAlignChecks h = .error ⟨.corrupt_file, alignMsg i⟩
        ∧ alignSize i h % 4 ≠ 0 := by
  unfold dbiAlignChecks
  split_ifs with c0 c1 c2 c3 c4
  · exact .inr ⟨0, rfl, c0⟩
  · exact .inr ⟨1, rfl, c1⟩
  · exact .inr ⟨2, rfl, c2⟩
  · exact .inr ⟨3, rfl, c3⟩
  · exact .inr ⟨4, rfl, c4⟩
  · refine .inl ⟨?_, rfl⟩
    intro i
    fin_cases i <;> simp [alignSize] <;> omega

/-- Claim C8: each of the module-info, section-contribution, section-map
and file-info substream sizes, plus the type-server size, must be a
multiple of 4 bytes; when any is not, reload's header checks fail with a
CorruptFile error whose message is the distinct message of a misaligned
substream, so the error names which substream is misaligned. -/
theorem substream_alignment_checks (data : List Nat) (age : Nat) (h : HeaderInfo)
    (hok : dbiLengthStage data age = .ok h) :
    ((∃ i : Fin 5, alignSize i h % 4 ≠ 0) →
      ∃ i : Fin 5, dbiHeaderChecks data age = .error ⟨.corrupt_file, alignMsg i⟩
        ∧ alignSize i h % 4 ≠ 0)
    ∧ ((∀ i : Fin 5, alignSize i h % 4 = 0) → dbiHeaderChecks data age = .ok h)
    ∧ ∀ i j : Fin 5, alignMsg i = alignMsg j → i = j := by
  refine ⟨?_, ?_, by decide⟩
  · rintro ⟨i, hi⟩
    rcases dbiAlignChecks_cases h with ⟨hall, _⟩ | ⟨j, hj, hjm⟩
    · exact absurd (hall i) hi
    · exact ⟨j, by simp [dbiHeaderChecks, hok, hj], hjm⟩
  · intro hall
    rcases dbiAlignChecks_cases h with ⟨_, hok2⟩ | ⟨j, _, hjm⟩
    · simp [dbiHeaderChecks, hok, hok2]
    · exact absurd (hall j) hjm

theorem substream_alignment_checks_witness :
    ∃ i : Fin 5, dbiHeaderChecks c8Data 0 = .error ⟨.corrupt_file, alignMsg i⟩
      ∧ alignSize i (parseHeader c8Data) % 4 ≠ 0 :=
  (substream_alignment_checks c8Data 0 (parseHeader c8Data) rfl).1 ⟨0, by decide⟩

/-- Claim C1 counterexample: a 64-byte stream whose header passes the
signature, version and age checks and whose total length equals 64 plus the
sum of the six declared substream sizes, yet the length check rejects it
with CorruptFile, because the code also adds the optional debug-header size
(here 4) to the required total. -/
theorem length_check_six_sizes_cex :
    64 ≤ cexC1Data.length
    ∧ int32OfBits (parseHeader cexC1Data).VersionSignature = -1
    ∧ PdbDbiV70 ≤ (parseHeader cexC1Data).VersionHeader
    ∧ (parseHeader cexC1Data).Age = 0
    ∧ cexC1Data.length = 64 + substreamSizeSum6 (parseHeader cexC1Data)
    ∧ dbiLengthStage cexC1Data 0 =
        .error ⟨.corrupt_file, "DBI Length does not equal sum of substreams."⟩ :=
  ⟨by decide, by decide, by decide, by decide, by decide, rfl⟩

/-- Claim C1 (amended): for every input stream of length at least 64 whose
header passes the signature, version and age checks, the header stage
passes exactly when the total stream length equals 64 plus the sum of all
seven declared sizes — the six substream sizes plus the optional
debug-header size (computed, as in the code, in 64-bit arithmetic over the
sign-extended fields; for non-negative sizes this is the plain sum) — and
any discrepancy fails with CorruptFile. -/
theorem length_check_exact (data : List Nat) (age : Nat)
    (hlen : 64 ≤ data.length)
    (hsig : int32OfBits (parseHeader data).VersionSignature = -1)
    (hver : PdbDbiV70 ≤ (parseHeader data).VersionHeader)
    (hage : (parseHeader data).Age = age) :
    (dbiLengthStage data age = .ok (parseHeader data) ↔
      data.length = dbiDeclaredLength (parseHeader data))
    ∧ (data.length ≠ dbiDeclaredLength (parseHeader data) →
      dbiLengthStage data age =
        .error ⟨.corrupt_file, "DBI Length does not equal sum of substreams."⟩)
    ∧ (substreamSizesSmall (parseHeader data) →
      dbiDeclaredLength (parseHeader data) =
        64 + substreamSizeSum7 (parseHeader data)) := by
  have h1 : ¬ data.length < sizeofHeaderInfo := by
    simp only [sizeofHeaderInfo]; omega
  have key : dbiLengthStage data age =
      if data.length = dbiDeclaredLength (parseHeader data) then .ok (parseHeader data)
      else .error ⟨.corrupt_file, "DBI Length does not equal sum of substreams."⟩ := by
    simp [dbiLengthStage, h1, hsig, hver, hage, ite_not]
  refine ⟨?_, ?_, ?_⟩
  · rw [key]
    constructor
    · intro hok
      by_contra hne
      rw [if_neg hne] at hok
      exact Except.noConfusion hok
    · intro he
      rw [if_pos he]
  · intro hne
    rw [key, if_neg hne]
  · rintro ⟨s1, s2, s3, s4, s5, s6, s7⟩
    have e1 : u64OfInt32Bits (parseHeader data).ModiSubstreamSize =
        (parseHeader data).ModiSubstreamSize := if_pos s1
    have e2 : u64OfInt32Bits (parseHeader data).SecContrSubstreamSize =
        (parseHeader data).SecContrSubstreamSize := if_pos s2
    have e3 : u64OfInt32Bits (parseHeader data).SectionMapSize =
        (parseHeader data).SectionMapSize := if_pos s3
    have e4 : u64OfInt32Bits (parseHeader data).FileInfoSize =
        (parseHeader data).FileInfoSize := if_pos s4
    have e5 : u64OfInt32Bits (parseHeader data).TypeServerSize =
        (parseHeader data).TypeServerSize := if_pos s5
    have e6 : u64OfInt32Bits (parseHeader data).OptionalDbgHdrSize =
        (parseHeader data).OptionalDbgHdrSize := if_pos s6
    have e7 : u64OfInt32Bits (parseHeader data).ECSubstreamSize =
        (parseHeader data).ECSubstreamSize := if_pos s7
    unfold dbiDeclaredLength
    rw [e1, e2, e3, e4, e5, e6, e7, Nat.mod_eq_of_lt (by simp only [sizeofHeaderInfo]; omega)]
    simp only [sizeofHeaderInfo, substreamSizeSum7, substreamSizeSum6]
    omega

theorem length_check_exact_witness :
    dbiLengthStage wData 1 = .ok (parseHeader wData) :=
  (length_check_exact wData 1 (by decide) (by decide) (by decide) (by decide)).1.mpr
    (by decide)

/-- Claim C6: for the FPO kind, a sentinel table entry makes reload succeed
with an empty FPO record table (witnessed concretely on the well-formed
stream); a non-sentinel entry out of the stream directory's valid range
fails with NoSuchStream; an indexed stream whose byte length is not an
exact multiple of the FPO record size fails with CorruptFile; and any
divisible length is accepted, whatever stream the entry names. -/
theorem fpoRecords_sentinel_and_checks (env : PdbEnv) (dbgStreams : List Nat)
    (entry : Nat)
    (hget : getDebugStreamIndex dbgStreams dbgHeaderTypeNewFPO = some entry) :
    (entry = InvalidStreamIndex →
      initializeFpoRecords env dbgStreams = some (.ok []))
    ∧ (entry ≠ InvalidStreamIndex → env.numStreams ≤ entry →
      initializeFpoRecords env dbgStreams = some (.error ⟨.no_stream, ""⟩))
    ∧ (entry ≠ InvalidStreamIndex → entry < env.numStreams →
      (env.streams entry).length % sizeofFpoData ≠ 0 →
      initializeFpoRecords env dbgStreams =
        some (.error ⟨.corrupt_file, "Corrupted New FPO stream."⟩))
    ∧ (entry ≠ InvalidStreamIndex → entry < env.numStreams →
      (env.streams entry).length % sizeofFpoData = 0 →
      initializeFpoRecords env dbgStreams =
        some (.ok (chunksOf sizeofFpoData (env.streams entry))))
    ∧ ∃ r, reload envW wData = .ok r ∧ r.fpoRecords = [] := by
  refine ⟨?_, ?_, ?_, ?_, ⟨_, rfl, rfl⟩⟩
  · intro hs
    simp [initializeFpoRecords, hget, hs]
  · intro hs hr
    have hnr : ¬ entry < env.numStreams := by omega
    simp [initializeFpoRecords, hget, hs, hnr]
  · intro hs hr hm
    simp [initializeFpoRecords, hget, hs, hr, hm]
  · intro hs hr hm
    simp [initializeFpoRecords, hget, hs, hr, hm]

theorem fpoRecords_sentinel_and_checks_witness :
    initializeFpoRecords envW (List.replicate 10 InvalidStreamIndex) = some (.ok []) :=
  (fpoRecords_sentinel_and_checks envW (List.replicate 10 InvalidStreamIndex)
      InvalidStreamIndex (by decide)).1 rfl

theorem readFilesRange_ok (offsets names : List Nat) :
    ∀ (count cursor : Nat) (fs : List (List Nat)),
      readFilesRange offsets names cursor count = .ok fs →
      fs.length = count ∧
        ∀ j, j < count → ∃ v, fs.get? j = some v ∧
          getFileNameForIndex offsets names (cursor + j) = .ok v := by
  intro count
  induction count with
  | zero =>
    intro cursor fs h
    simp only [readFilesRange] at h
    cases h
    simp
  | succ n ih =>
    intro cursor fs h
    unfold readFilesRange at h
    cases hg : getFileNameForIndex offsets names cursor with
    | error e => rw [hg] at h; exact absurd h (by simp)
    | ok name =>
      rw [hg] at h
      cases hr : readFilesRange offsets names (cursor + 1) n with
      | error e => rw [hr] at h; exact absurd h (by simp)
      | ok more =>
        rw [hr] at h
        simp only [Except.ok.injEq] at h
        subst h
        obtain ⟨hlen, hall⟩ := ih (cursor + 1) more hr
        refine ⟨by simp [hlen], ?_⟩
        intro j hj
        cases j with
        | zero => exact ⟨name, by simp, by simpa using hg⟩
        | succ k =>
          obtain ⟨v, hv1, hv2⟩ := hall k (by omega)
          refine ⟨v, by simpa using hv1, ?_⟩
          rw [show cursor + (k + 1) = cursor + 1 + k by omega]
          exact hv2

theorem associateFiles_ok (offsets names : List Nat) :
    ∀ (counts : List Nat) (cursor : Nat) (res : List (List (List Nat))),
      associateFiles offsets names cursor counts = .ok res →
      res.map List.length = counts ∧
        ∀ k, k < counts.sum → ∃ v, res.flatten.get? k = some v ∧
          getFileNameForIndex offsets names (cursor + k) = .ok v := by
  intro counts
  induction counts with
  | nil =>
    intro cursor res h
    simp only [associateFiles] at h
    cases h
    simp
  | cons c rest ih =>
    intro cursor res h
    unfold associateFiles at h
    cases hf : readFilesRange offsets names cursor c with
    | error e => rw [hf] at h; exact absurd h (by simp)
    | ok files =>
      rw [hf] at h
      cases ha : associateFiles offsets names (cursor + c) rest with
      | error e => rw [ha] at h; exact absurd h (by simp)
      | ok more =>
        rw [ha] at h
        simp only [Except.ok.injEq] at h
        subst h
        obtain ⟨hflen, hfall⟩ := readFilesRange_ok offsets names c cursor files hf
        obtain ⟨hmlen, hmall⟩ := ih (cursor + c) more ha
        refine ⟨by simp [hflen, hmlen], ?_⟩
        intro k hk
        rw [List.sum_cons] at hk
        by_cases hkc : k < c
        · obtain ⟨v, hv1, hv2⟩ := hfall k hkc
          refine ⟨v, ?_, hv2⟩
          rw [List.flatten_cons, List.get?_append (by omega : k < files.length)]
          exact hv1
        · obtain ⟨v, hv1, hv2⟩ := hmall (k - c) (by omega)
          refine ⟨v, ?_, ?_⟩
          · rw [List.flatten_cons, List.get?_append_right (by omega : files.length ≤ k), hflen]
            exact hv1
          · rw [show cursor + k = cursor + c + (k - c) by omega]
            exact hv2

/-- Claim C4: the file-name association pass walks modules in order with a
single running cursor, never reset per module: the resulting lists have
exactly the per-module counts as lengths, and the k-th name over all
modules (in flattened order) is the resolution of global file index k
through getFileNameForIndex.  In particular, for the names buffer holding
a.c NUL b.c NUL with module 0 owning one file at offset 0 and module 1 one
file at offset 4, module 0 receives [a.c] and module 1 receives [b.c]. -/
theorem association_single_cursor (offsets names counts : List Nat)
    (res : List (List (List Nat)))
    (hok : associateFiles offsets names 0 counts = .ok res) :
    (res.map List.length = counts
      ∧ ∀ k, k < counts.sum → ∃ v, res.flatten.get? k = some v
          ∧ getFileNameForIndex offsets names k = .ok v)
    ∧ fileListsOf (initializeFileInfo c4Modules c4FileInfo) =
        some [[[97, 46, 99]], [[98, 46, 99]]] := by
  obtain ⟨h1, h2⟩ := associateFiles_ok offsets names counts 0 res hok
  exact ⟨⟨h1, fun k hk => by simpa using h2 k hk⟩, rfl⟩

theorem association_single_cursor_witness :
    (([[[97, 46, 99]], [[98, 46, 99]]] : List (List (List Nat))).map List.length
        = [1, 1]
      ∧ ∀ k, k < ([1, 1] : List Nat).sum →
        ∃ v, ([[[97, 46, 99]], [[98, 46, 99]]] :
            List (List (List Nat))).flatten.get? k = some v
          ∧ getFileNameForIndex [0, 4] c4Names k = .ok v)
    ∧ fileListsOf (initializeFileInfo c4Modules c4FileInfo) =
        some [[[97, 46, 99]], [[98, 46, 99]]] :=
  association_single_cursor [0, 4] c4Names [1, 1]
    [[[97, 46, 99]], [[98, 46, 99]]] rfl

theorem bindE_eq_ok {α : Type} (x : Except RawError α) (f : α → DbiOutcome)
    (r : DbiResult) (h : DbiOutcome.bindE x f = .ok r) :
    ∃ a, x = .ok a ∧ f a = .ok r := by
  cases x with
  | error e => simp [DbiOutcome.bindE] at h
  | ok a => exact ⟨a, rfl, h⟩

theorem bindE_eq_oob {α : Type} (x : Except RawError α) (f : α → DbiOutcome)
    (h : DbiOutcome.bindE x f = .oob) :
    ∃ a, x = .ok a ∧ f a = .oob := by
  cases x with
  | error e => simp [DbiOutcome.bindE] at h
  | ok a => exact ⟨a, rfl, h⟩

theorem dbiLengthStage_eq_ok (data : List Nat) (age : Nat) (h : HeaderInfo)
    (hyp : dbiLengthStage data age = .ok h) : h = parseHeader data := by
  simp only [dbiLengthStage] at hyp
  split_ifs at hyp
  · injection hyp with h'
    exact h'.symm

theorem dbiHeaderChecks_eq_ok (data : List Nat) (age : Nat) (h : HeaderInfo)
    (hyp : dbiHeaderChecks data age = .ok h) :
    dbiLengthStage data age = .ok h ∧ h = parseHeader data := by
  unfold dbiHeaderChecks at hyp
  cases hls : dbiLengthStage data age with
  | error e => rw [hls] at hyp; simp at hyp
  | ok h' =>
    rw [hls] at hyp
    simp only [] at hyp
    cases hac : dbiAlignChecks h' with
    | error e => rw [hac] at hyp; simp at hyp
    | ok u =>
      rw [hac] at hyp
      simp only [Except.ok.injEq] at hyp
      subst hyp
      exact ⟨rfl, dbiLengthStage_eq_ok data age h' hls⟩

theorem readStreamRef_eq_ok (data : List Nat) (off n : Nat) (l : List Nat)
    (h : readStreamRef data off n = .ok l) :
    l = (data.drop off).take n ∧ off + n ≤ data.length := by
  unfold readStreamRef at h
  split_ifs at h with hc
  · injection h with h'
    exact ⟨h'.symm, hc⟩

theorem readUInt16Array_eq_ok (data : List Nat) (off count : Nat) (l : List Nat)
    (h : readUInt16Array data off count = .ok l) : l.length = count := by
  unfold readUInt16Array at h
  split_ifs at h
  · injection h with h'
    rw [← h']
    simp

theorem initializeFileInfo_eq_ok (mods : List ModuleRecord) (fi : List Nat)
    (t : List ModuleRecord × List Nat × List Nat)
    (h : initializeFileInfo mods fi = .ok t) : t.1.length = mods.length := by
  unfold initializeFileInfo at h
  by_cases h4 : fi.length < 4
  · rw [if_pos h4] at h
    simp at h
  · rw [if_neg h4] at h
    simp only [] at h
    by_cases hnm : leAt fi 0 2 ≠ mods.length
    · rw [if_pos hnm] at h
      simp at h
    · rw [if_neg hnm] at h
      cases hmi : readUInt16Array fi 4 mods.length with
      | error e => rw [hmi] at h; simp at h
      | ok mis =>
        rw [hmi] at h
        simp only [] at h
        cases hct : readUInt16Array fi (4 + 2 * mods.length) mods.length with
        | error e => rw [hct] at h; simp at h
        | ok counts =>
          rw [hct] at h
          simp only [] at h
          cases hof : readUInt32Array fi (4 + 4 * mods.length) (sumCountsU32 counts) with
          | error e => rw [hof] at h; simp at h
          | ok offsets =>
            rw [hof] at h
            simp only [] at h
            cases has : associateFiles offsets
                (fi.drop (4 + 4 * mods.length + 4 * sumCountsU32 counts)) 0 counts with
            | error e => rw [has] at h; simp at h
            | ok lists =>
              rw [has] at h
              simp only [Except.ok.injEq] at h
              rw [← h]
              have hcl : counts.length = mods.length :=
                readUInt16Array_eq_ok fi (4 + 2 * mods.length) mods.length counts hct
              have hll : lists.length = counts.length := by
                have hmap := (associateFiles_ok offsets
                  (fi.drop (4 + 4 * mods.length + 4 * sumCountsU32 counts)) counts 0
                  lists has).1
                have := congrArg List.length hmap
                simpa using this
              simp only [List.length_zipWith]
              omega

/-- Claim C5: the number of modules is the number of variable-length
records produced by iterating the module-info region — whenever reload
succeeds, the decoded module list has exactly the length of the iteratively
discovered record list of the region the header delimits, and no header
field enters that count; and if the file-info substream header's NumModules
field differs from that count, the file-info stage fails with CorruptFile. -/
theorem module_count_discovered :
    (∀ (env : PdbEnv) (data : List Nat) (r : DbiResult), reload env data = .ok r →
      ∃ mods,
        readModuleInfos ((data.drop sizeofHeaderInfo).take (leAt data 24 4)) = .ok mods
        ∧ r.modules.length = mods.length)
    ∧ (∀ (modules : List ModuleRecord) (fi : List Nat), 4 ≤ fi.length →
      leAt fi 0 2 ≠ modules.length →
      initializeFileInfo modules fi =
        .error ⟨.corrupt_file, "FileInfo substream count doesn't match DBI."⟩) := by
  constructor
  · intro env data r hok
    unfold reload at hok
    obtain ⟨h, hH, hok⟩ := bindE_eq_ok _ _ _ hok
    obtain ⟨modiBytes, hMB, hok⟩ := bindE_eq_ok _ _ _ hok
    obtain ⟨mods, hMods, hok⟩ := bindE_eq_ok _ _ _ hok
    obtain ⟨scBytes, hSC, hok⟩ := bindE_eq_ok _ _ _ hok
    obtain ⟨smBytes, hSM, hok⟩ := bindE_eq_ok _ _ _ hok
    obtain ⟨fiBytes, hFI, hok⟩ := bindE_eq_ok _ _ _ hok
    obtain ⟨tsBytes, hTS, hok⟩ := bindE_eq_ok _ _ _ hok
    obtain ⟨ecBytes, hEC, hok⟩ := bindE_eq_ok _ _ _ hok
    obtain ⟨dbg, hDbg, hok⟩ := bindE_eq_ok _ _ _ hok
    obtain ⟨scd, hSCD, hok⟩ := bindE_eq_ok _ _ _ hok
    cases hSH : initializeSectionHeadersData env dbg with
    | none => rw [hSH] at hok; simp at hok
    | some shRes =>
      rw [hSH] at hok
      simp only [] at hok
      obtain ⟨secHdrs, hSecH, hok⟩ := bindE_eq_ok _ _ _ hok
      obtain ⟨secMap, hSecM, hok⟩ := bindE_eq_ok _ _ _ hok
      obtain ⟨fiRes, hFiRes, hok⟩ := bindE_eq_ok _ _ _ hok
      cases hFPO : initializeFpoRecords env dbg with
      | none => rw [hFPO] at hok; simp at hok
      | some fpoRes =>
        rw [hFPO] at hok
        simp only [] at hok
        obtain ⟨fpos, hFpos, hok⟩ := bindE_eq_ok _ _ _ hok
        by_cases hrem : 0 < data.length -
            (sizeofHeaderInfo + h.ModiSubstreamSize + h.SecContrSubstreamSize +
              h.SectionMapSize + h.FileInfoSize + h.TypeServerSize +
              h.ECSubstreamSize + 2 * dbgStreamCount h)
        · rw [if_pos hrem] at hok
          simp at hok
        · rw [if_neg hrem] at hok
          obtain ⟨u, hEcL, hok⟩ := bindE_eq_ok _ _ _ hok
          simp only [DbiOutcome.ok.injEq] at hok
          obtain ⟨hmb, _⟩ := readStreamRef_eq_ok _ _ _ _ hMB
          have hhp := (dbiHeaderChecks_eq_ok _ _ _ hH).2
          rw [hmb, hhp] at hMods
          refine ⟨mods, hMods, ?_⟩
          rw [← hok]
          exact initializeFileInfo_eq_ok mods fiBytes fiRes hFiRes
  · intro modules fi h4 hnm
    unfold initializeFileInfo
    rw [if_neg (by omega : ¬ fi.length < 4), if_pos hnm]

theorem module_count_discovered_witness :
    (∃ mods,
      readModuleInfos ((wData.drop sizeofHeaderInfo).take (leAt wData 24 4)) = .ok mods)
    ∧ initializeFileInfo [] [9, 0, 0, 0] =
        .error ⟨.corrupt_file, "FileInfo substream count doesn't match DBI."⟩ := by
  constructor
  · obtain ⟨mods, hm, _⟩ := module_count_discovered.1 envW wData _ rfl
    exact ⟨mods, hm⟩
  · exact module_count_discovered.2 [] [9, 0, 0, 0] (by decide) (by decide)

theorem initializeSectionHeadersData_eq_none (env : PdbEnv) (dbg : List Nat)
    (h : initializeSectionHeadersData env dbg = none) :
    getDebugStreamIndex dbg dbgHeaderTypeSectionHdr = none := by
  unfold initializeSectionHeadersData at h
  cases hg : getDebugStreamIndex dbg dbgHeaderTypeSectionHdr with
  | none => rfl
  | some n => rw [hg] at h; simp at h

theorem initializeFpoRecords_eq_none (env : PdbEnv) (dbg : List Nat)
    (h : initializeFpoRecords env dbg = none) :
    getDebugStreamIndex dbg dbgHeaderTypeNewFPO = none := by
  unfold initializeFpoRecords at h
  cases hg : getDebugStreamIndex dbg dbgHeaderTypeNewFPO with
  | none => rfl
  | some n => rw [hg] at h; simp at h

/-- Claim C10: the debug-stream-table lookup performs no bounds check —
the access is out of bounds exactly when the table has no more entries
than the kind position; reload indexes the table at the fixed section-header
and new-FPO positions, and never reaches an out-of-bounds access when the
declared optional-header size yields a table with more than nine entries;
the concrete stream declaring a four-entry table drives reload into the
out-of-bounds access. -/
theorem debug_stream_lookup_unchecked :
    (∀ (dbgStreams : List Nat) (ty : Nat),
      getDebugStreamIndex dbgStreams ty = none ↔ dbgStreams.length ≤ ty)
    ∧ (∀ (env : PdbEnv) (data : List Nat),
      dbgHeaderTypeNewFPO < dbgStreamCount (parseHeader data) →
      reload env data ≠ .oob)
    ∧ reload envW oobData = .oob := by
  refine ⟨?_, ?_, rfl⟩
  · intro dbgStreams ty
    simp [getDebugStreamIndex, List.get?_eq_none]
  · intro env data hcount hoob
    unfold reload at hoob
    obtain ⟨h, hH, hoob⟩ := bindE_eq_oob _ _ hoob
    obtain ⟨modiBytes, hMB, hoob⟩ := bindE_eq_oob _ _ hoob
    obtain ⟨mods, hMods, hoob⟩ := bindE_eq_oob _ _ hoob
    obtain ⟨scBytes, hSC, hoob⟩ := bindE_eq_oob _ _ hoob
    obtain ⟨smBytes, hSM, hoob⟩ := bindE_eq_oob _ _ hoob
    obtain ⟨fiBytes, hFI, hoob⟩ := bindE_eq_oob _ _ hoob
    obtain ⟨tsBytes, hTS, hoob⟩ := bindE_eq_oob _ _ hoob
    obtain ⟨ecBytes, hEC, hoob⟩ := bindE_eq_oob _ _ hoob
    obtain ⟨dbg, hDbg, hoob⟩ := bindE_eq_oob _ _ hoob
    obtain ⟨scd, hSCD, hoob⟩ := bindE_eq_oob _ _ hoob
    have hdlen : dbg.length = dbgStreamCount h :=
      readUInt16Array_eq_ok _ _ _ _ hDbg
    have hhp := (dbiHeaderChecks_eq_ok _ _ _ hH).2
    have hlong : dbgHeaderTypeNewFPO < dbg.length := by
      rw [hdlen, hhp]
      exact hcount
    cases hSH : initializeSectionHeadersData env dbg with
    | none =>
      have := initializeSectionHeadersData_eq_none env dbg hSH
      rw [getDebugStreamIndex, List.get?_eq_none] at this
      have : dbgHeaderTypeSectionHdr < dbgHeaderTypeNewFPO := by decide
      omega
    | some shRes =>
      rw [hSH] at hoob
      simp only [] at hoob
      obtain ⟨secHdrs, hSecH, hoob⟩ := bindE_eq_oob _ _ hoob
      obtain ⟨secMap, hSecM, hoob⟩ := bindE_eq_oob _ _ hoob
      obtain ⟨fiRes, hFiRes, hoob⟩ := bindE_eq_oob _ _ hoob
      cases hFPO : initializeFpoRecords env dbg with
      | none =>
        have := initializeFpoRecords_eq_none env dbg hFPO
        rw [getDebugStreamIndex, List.get?_eq_none] at this
        omega
      | some fpoRes =>
        rw [hFPO] at hoob
        simp only [] at hoob
        obtain ⟨fpos, hFpos, hoob⟩ := bindE_eq_oob _ _ hoob
        by_cases hrem : 0 < data.length -
            (sizeofHeaderInfo + h.ModiSubstreamSize + h.SecContrSubstreamSize +
              h.SectionMapSize + h.FileInfoSize + h.TypeServerSize +
              h.ECSubstreamSize + 2 * dbgStreamCount h)
        · rw [if_pos hrem] at hoob
          simp at hoob
        · rw [if_neg hrem] at hoob
          obtain ⟨u, hEcL, hoob⟩ := bindE_eq_oob _ _ hoob
          simp at hoob

theorem debug_stream_lookup_unchecked_witness :
    reload envW wData ≠ .oob :=
  debug_stream_lookup_unchecked.2.1 envW wData (by decide)

theorem byteAt_set_ne (data : List Nat) (p v i : Nat) (h : p ≠ i) :
    byteAt (data.set p v) i = byteAt data i := by
  unfold byteAt
  rw [List.getD_eq_getElem?_getD, List.getD_eq_getElem?_getD, List.getElem?_set_ne h]

theorem leAt_set_out (data : List Nat) (p v : Nat) :
    ∀ n off, off + n ≤ p ∨ p < off → leAt (data.set p v) off n = leAt data off n := by
  intro n
  induction n with
  | zero => intro off h; rfl
  | succ m ih =>
    intro off h
    unfold leAt
    rw [byteAt_set_ne data p v off (by rcases h with h | h <;> omega),
      ih (off + 1) (by rcases h with h | h <;> omega)]

theorem parseHeader_set (data : List Nat) (p v : Nat) (hp : 64 ≤ p) :
    parseHeader (data.set p v) = parseHeader data := by
  unfold parseHeader
  congr 1 <;> exact leAt_set_out data p v _ _ (Or.inl (by omega))

theorem slice_set_out (data : List Nat) (p v s n : Nat) (h : s + n ≤ p ∨ p < s) :
    ((data.set p v).drop s).take n = (data.drop s).take n := by
  apply List.ext_get?
  intro j
  by_cases hj : j < n
  · rw [List.get?_take hj, List.get?_take hj, List.get?_drop, List.get?_drop,
      List.get?_set_ne v _ (by rcases h with h | h <;> omega)]
  · have h1 : (((data.set p v).drop s).take n).length ≤ j := by
      simp [List.length_take, List.length_drop]
      omega
    have h2 : ((data.drop s).take n).length ≤ j := by
      simp [List.length_take, List.length_drop]
      omega
    rw [List.get?_eq_none.mpr h1, List.get?_eq_none.mpr h2]

theorem slice_set_in (data : List Nat) (v s n k : Nat) (hk : k < n) :
    ((data.set (s + k) v).drop s).take n = ((data.drop s).take n).set k v := by
  apply List.ext_get?
  intro j
  by_cases hj : j < n
  · by_cases hjk : j = k
    · subst hjk
      simp only [List.get?_take hj, List.get?_drop, List.get?_set_eq]
    · simp only [List.get?_take hj, List.get?_drop,
        List.get?_set_ne v _ (show s + k ≠ s + j by omega),
        List.get?_set_ne v _ (show k ≠ j from fun hh => hjk hh.symm)]
  · have h1 : (((data.set (s + k) v).drop s).take n).length ≤ j := by
      simp [List.length_take, List.length_drop]
      omega
    have h2 : ((((data.drop s).take n).set k v)).length ≤ j := by
      simp [List.length_take, List.length_drop]
      omega
    rw [List.get?_eq_none.mpr h1, List.get?_eq_none.mpr h2]

theorem drop_set_lt (data : List Nat) (p v j : Nat) (h : p < j) :
    (data.set p v).drop j = data.drop j := by
  apply List.ext_get?
  intro m
  rw [List.get?_drop, List.get?_drop, List.get?_set_ne v _ (by omega)]

theorem readStreamRef_set_out (data : List Nat) (p v s n : Nat)
    (h : s + n ≤ p ∨ p < s) :
    readStreamRef (data.set p v) s n = readStreamRef data s n := by
  unfold readStreamRef
  rw [List.length_set, slice_set_out data p v s n h]

theorem readUInt16Array_set_out (data : List Nat) (p v off cnt : Nat) (h : p < off) :
    readUInt16Array (data.set p v) off cnt = readUInt16Array data off cnt := by
  unfold readUInt16Array
  rw [List.length_set]
  have he : (fun i => leAt (data.set p v) (off + 2 * i) 2) =
      fun i => leAt data (off + 2 * i) 2 :=
    funext fun i => leAt_set_out data p v 2 (off + 2 * i) (Or.inr (by omega))
  rw [he]

theorem readUInt32Array_set_out (data : List Nat) (p v off cnt : Nat) (h : p < off) :
    readUInt32Array (data.set p v) off cnt = readUInt32Array data off cnt := by
  unfold readUInt32Array
  rw [List.length_set]
  have he : (fun i => leAt (data.set p v) (off + 4 * i) 4) =
      fun i => leAt data (off + 4 * i) 4 :=
    funext fun i => leAt_set_out data p v 4 (off + 4 * i) (Or.inr (by omega))
  rw [he]

theorem readStreamRef_set2_in (data : List Nat) (b2 b3 s n : Nat)
    (h2 : 2 < n) (h3 : 3 < n) :
    readStreamRef ((data.set (s + 2) b2).set (s + 3) b3) s n =
      Except.map (fun l => (l.set 2 b2).set 3 b3) (readStreamRef data s n) := by
  unfold readStreamRef
  rw [List.length_set, List.length_set]
  by_cases hb : s + n ≤ data.length
  · rw [if_pos hb, if_pos hb,
      slice_set_in (data.set (s + 2) b2) b3 s n 3 h3,
      slice_set_in data b2 s n 2 h2]
    rfl
  · rw [if_neg hb, if_neg hb]
    rfl

theorem initializeFileInfo_set23 (mods : List ModuleRecord) (fi : List Nat)
    (b2 b3 : Nat) :
    initializeFileInfo mods ((fi.set 2 b2).set 3 b3) = initializeFileInfo mods fi := by
  have hlen : ((fi.set 2 b2).set 3 b3).length = fi.length := by
    simp
  have h02 : leAt ((fi.set 2 b2).set 3 b3) 0 2 = leAt fi 0 2 := by
    rw [leAt_set_out (fi.set 2 b2) 3 b3 2 0 (Or.inl (by omega)),
      leAt_set_out fi 2 b2 2 0 (Or.inl (by omega))]
  have e1 : ∀ cnt, readUInt16Array ((fi.set 2 b2).set 3 b3) 4 cnt =
      readUInt16Array fi 4 cnt := fun cnt => by
    rw [readUInt16Array_set_out (fi.set 2 b2) 3 b3 4 cnt (by omega),
      readUInt16Array_set_out fi 2 b2 4 cnt (by omega)]
  have e2 : ∀ cnt, readUInt16Array ((fi.set 2 b2).set 3 b3) (4 + 2 * mods.length) cnt =
      readUInt16Array fi (4 + 2 * mods.length) cnt := fun cnt => by
    rw [readUInt16Array_set_out (fi.set 2 b2) 3 b3 _ cnt (by omega),
      readUInt16Array_set_out fi 2 b2 _ cnt (by omega)]
  have e3 : ∀ cnt, readUInt32Array ((fi.set 2 b2).set 3 b3) (4 + 4 * mods.length) cnt =
      readUInt32Array fi (4 + 4 * mods.length) cnt := fun cnt => by
    rw [readUInt32Array_set_out (fi.set 2 b2) 3 b3 _ cnt (by omega),
      readUInt32Array_set_out fi 2 b2 _ cnt (by omega)]
  have e4 : ∀ m, ((fi.set 2 b2).set 3 b3).drop (4 + 4 * mods.length + 4 * m) =
      fi.drop (4 + 4 * mods.length + 4 * m) := fun m => by
    rw [drop_set_lt (fi.set 2 b2) 3 b3 _ (by omega), drop_set_lt fi 2 b2 _ (by omega)]
  simp only [initializeFileInfo, hlen, h02, e1, e2, e3, e4]

theorem dbiLengthStage_congr (d1 d2 : List Nat) (age : Nat)
    (hl : d1.length = d2.length) (hp : parseHeader d1 = parseHeader d2) :
    dbiLengthStage d1 age = dbiLengthStage d2 age := by
  simp only [dbiLengthStage, hl, hp]

theorem dbiHeaderChecks_congr (d1 d2 : List Nat) (age : Nat)
    (hl : d1.length = d2.length) (hp : parseHeader d1 = parseHeader d2) :
    dbiHeaderChecks d1 age = dbiHeaderChecks d2 age := by
  unfold dbiHeaderChecks
  rw [dbiLengthStage_congr d1 d2 age hl hp]

theorem bindE_map {α β : Type} (g : α → β) (x : Except RawError α)
    (f : β → DbiOutcome) :
    DbiOutcome.bindE (Except.map g x) f = DbiOutcome.bindE x fun a => f (g a) := by
  cases x <;> rfl

theorem bindE_ok_apply {α : Type} (a : α) (f : α → DbiOutcome) :
    DbiOutcome.bindE (.ok a) f = f a := rfl

/-- Claim C3: two input streams that differ only in the declared 16-bit
NumSourceFiles field of the file-info substream header (bytes 2 and 3 of
the file-info region) produce identical reload results — the same
success/failure outcome and the same decoded tables, module file-name
lists included: overwriting those two bytes with any values leaves reload
unchanged.  The declared value is discarded; the recomputed sum of the
per-module counts drives all allocation and iteration. -/
theorem numSourceFiles_field_ignored (env : PdbEnv) (data : List Nat) (b2 b3 : Nat)
    (hF : 4 ≤ leAt data 36 4) :
    reload env ((data.set (fileInfoStart data + 2) b2).set (fileInfoStart data + 3) b3)
      = reload env data := by
  have hfis : fileInfoStart data =
      sizeofHeaderInfo + (parseHeader data).ModiSubstreamSize +
        (parseHeader data).SecContrSubstreamSize +
        (parseHeader data).SectionMapSize := rfl
  have hF4 : (parseHeader data).FileInfoSize = leAt data 36 4 := rfl
  have hFge : 4 ≤ (parseHeader data).FileInfoSize := by rw [hF4]; exact hF
  set d' := (data.set (fileInfoStart data + 2) b2).set (fileInfoStart data + 3) b3
    with hd'
  have hplen : d'.length = data.length := by rw [hd']; simp
  have hpp : parseHeader d' = parseHeader data := by
    rw [hd', parseHeader_set _ _ b3 (by unfold fileInfoStart sizeofHeaderInfo; omega),
      parseHeader_set data _ b2 (by unfold fileInfoStart sizeofHeaderInfo; omega)]
  have hHC : dbiHeaderChecks d' env.infoAge = dbiHeaderChecks data env.infoAge :=
    dbiHeaderChecks_congr d' data env.infoAge hplen hpp
  unfold reload
  rw [hHC]
  cases hH : dbiHeaderChecks data env.infoAge with
  | error e => rfl
  | ok h =>
    simp only [bindE_ok_apply]
    have hh : h = parseHeader data := (dbiHeaderChecks_eq_ok _ _ _ hH).2
    subst hh
    have eModi : readStreamRef d' sizeofHeaderInfo
        (parseHeader data).ModiSubstreamSize =
        readStreamRef data sizeofHeaderInfo (parseHeader data).ModiSubstreamSize := by
      rw [hd', readStreamRef_set_out _ _ b3 _ _ (Or.inl (by rw [hfis]; omega)),
        readStreamRef_set_out data _ b2 _ _ (Or.inl (by rw [hfis]; omega))]
    have eSC : readStreamRef d'
        (sizeofHeaderInfo + (parseHeader data).ModiSubstreamSize)
        (parseHeader data).SecContrSubstreamSize =
        readStreamRef data (sizeofHeaderInfo + (parseHeader data).ModiSubstreamSize)
          (parseHeader data).SecContrSubstreamSize := by
      rw [hd', readStreamRef_set_out _ _ b3 _ _ (Or.inl (by rw [hfis]; omega)),
        readStreamRef_set_out data _ b2 _ _ (Or.inl (by rw [hfis]; omega))]
    have eSM : readStreamRef d'
        (sizeofHeaderInfo + (parseHeader data).ModiSubstreamSize +
          (parseHeader data).SecContrSubstreamSize)
        (parseHeader data).SectionMapSize =
        readStreamRef data
          (sizeofHeaderInfo + (parseHeader data).ModiSubstreamSize +
            (parseHeader data).SecContrSubstreamSize)
          (parseHeader data).SectionMapSize := by
      rw [hd', readStreamRef_set_out _ _ b3 _ _ (Or.inl (by rw [hfis]; omega)),
        readStreamRef_set_out data _ b2 _ _ (Or.inl (by rw [hfis]; omega))]
    have eFI : readStreamRef d'
        (sizeofHeaderInfo + (parseHeader data).ModiSubstreamSize +
          (parseHeader data).SecContrSubstreamSize + (parseHeader data).SectionMapSize)
        (parseHeader data).FileInfoSize =
        Except.map (fun l => (l.set 2 b2).set 3 b3)
          (readStreamRef data
            (sizeofHeaderInfo + (parseHeader data).ModiSubstreamSize +
              (parseHeader data).SecContrSubstreamSize +
              (parseHeader data).SectionMapSize)
            (parseHeader data).FileInfoSize) := by
      rw [hd', hfis]
      exact readStreamRef_set2_in data b2 b3 _ _ (by omega) (by omega)
    have eTS : readStreamRef d'
        (sizeofHeaderInfo + (parseHeader data).ModiSubstreamSize +
          (parseHeader data).SecContrSubstreamSize + (parseHeader data).SectionMapSize +
          (parseHeader data).FileInfoSize)
        (parseHeader data).TypeServerSize =
        readStreamRef data
          (sizeofHeaderInfo + (parseHeader data).ModiSubstreamSize +
            (parseHeader data).SecContrSubstreamSize +
            (parseHeader data).SectionMapSize + (parseHeader data).FileInfoSize)
          (parseHeader data).TypeServerSize := by
      rw [hd', readStreamRef_set_out _ _ b3 _ _ (Or.inr (by rw [hfis]; omega)),
        readStreamRef_set_out data _ b2 _ _ (Or.inr (by rw [hfis]; omega))]
    have eEC : readStreamRef d'
        (sizeofHeaderInfo + (parseHeader data).ModiSubstreamSize +
          (parseHeader data).SecContrSubstreamSize + (parseHeader data).SectionMapSize +
          (parseHeader data).FileInfoSize + (parseHeader data).TypeServerSize)
        (parseHeader data).ECSubstreamSize =
        readStreamRef data
          (sizeofHeaderInfo + (parseHeader data).ModiSubstreamSize +
            (parseHeader data).SecContrSubstreamSize +
            (parseHeader data).SectionMapSize + (parseHeader data).FileInfoSize +
            (parseHeader data).TypeServerSize)
          (parseHeader data).ECSubstreamSize := by
      rw [hd', readStreamRef_set_out _ _ b3 _ _ (Or.inr (by rw [hfis]; omega)),
        readStreamRef_set_out data _ b2 _ _ (Or.inr (by rw [hfis]; omega))]
    have eDbg : readUInt16Array d'
        (sizeofHeaderInfo + (parseHeader data).ModiSubstreamSize +
          (parseHeader data).SecContrSubstreamSize + (parseHeader data).SectionMapSize +
          (parseHeader data).FileInfoSize + (parseHeader data).TypeServerSize +
          (parseHeader data).ECSubstreamSize)
        (dbgStreamCount (parseHeader data)) =
        readUInt16Array data
          (sizeofHeaderInfo + (parseHeader data).ModiSubstreamSize +
            (parseHeader data).SecContrSubstreamSize +
            (parseHeader data).SectionMapSize + (parseHeader data).FileInfoSize +
            (parseHeader data).TypeServerSize + (parseHeader data).ECSubstreamSize)
          (dbgStreamCount (parseHeader data)) := by
      rw [hd', readUInt16Array_set_out _ _ b3 _ _ (by rw [hfis]; omega),
        readUInt16Array_set_out data _ b2 _ _ (by rw [hfis]; omega)]
    simp only [eModi, eSC, eSM, eFI, eTS, eEC, eDbg, hplen, bindE_map,
      initializeFileInfo_set23]

theorem numSourceFiles_field_ignored_witness :
    reload envW ((wData.set (fileInfoStart wData + 2) 7).set
        (fileInfoStart wData + 3) 9)
      = reload envW wData :=
  numSourceFiles_field_ignored envW wData 7 9 (by decide)
